import Mathlib

/-!
Shallow embedding of `nfl_scout_utils.py` (classes `Test` and `Player`,
functions `parse_data`, `barplot`, `histogram`, `boxplot`, `scatterplot`,
`kmeans`).

Modelling conventions:
* SQLite rows of the `Players` / `Tests` tables become Lean structures; the
  database becomes a `Store` of two row lists.  A per-field accessor such as
  `Player.pos` (a `SELECT ... WHERE ID=?` followed by `fetchall()[0][0]`)
  becomes a `List.find?` returning `Option`; `none` models the `IndexError`
  the Python raises when no row matches.
* Python exceptions become an `Except PyErr` result; `PyErr` names the
  exception class raised (`ValueError`, `ZeroDivisionError`, `KeyError`,
  `IndexError`).  The spec's "ValidationError" is `ValueError` in the code.
* Python `float` values are modelled as exact rationals `ℚ`; `float(s)`
  becomes the decimal parser `pyFloat?` (returning `none` on the strings the
  code can feed it, i.e. plain decimal literals or the empty string).
* Python's `round(x, 2)` (round-half-to-even) becomes `round2`.
* A pandas `DataFrame` becomes a `Frame`: a list of column names and a list
  of rows of cells.
-/

set_option maxRecDepth 4000

deriving instance DecidableEq for Except

namespace NflScout

/-- Exception classes raised by the Python code, by name. -/
inductive PyErr where
  | valueError
  | zeroDivisionError
  | keyError
  | indexError
  deriving DecidableEq, Repr

/-- A row of the SQLite `Players` table, as inserted by `parse_data`. -/
structure PlayerRow where
  id : String
  name : String
  pos : String
  ht : String
  wt : String
  year : String
  team : String
  round : String
  pick : String
  deriving DecidableEq, Repr

/-- A row of the SQLite `Tests` table, as inserted by `parse_data`. -/
structure TestRow where
  testId : String
  playerId : String
  pos : String
  name : String
  value : String
  year : String
  deriving DecidableEq, Repr

/-- The backing SQLite database `Combine_database.db`: the two tables. -/
structure Store where
  players : List PlayerRow
  tests : List TestRow
  deriving DecidableEq, Repr

/-- An in-memory `Player` object: its `_id` and the list of `Test` objects it
owns (each `Test` object holds only a `test_id`, so the list is a list of
test ids, resolved against the database on access). -/
structure PlayerEnt where
  id : String
  ownedTests : List String
  deriving DecidableEq, Repr

/-- Lift an `Option` (a `fetchall()[0]`-style lookup) into `Except`,
raising `e` when the lookup comes back empty. -/
def ofOption {α : Type} (o : Option α) (e : PyErr) : Except PyErr α :=
  match o with
  | some a => .ok a
  | none => .error e

/-- First `Tests` row with the given `TestID` (the `fetchall()[0]` of the
`Test` property queries). -/
def findTest (db : List TestRow) (tid : String) : Option TestRow :=
  db.find? (fun r => r.testId == tid)

/-- `Test.name` property: `SELECT Name FROM Tests WHERE TestID=?`. -/
def testName (db : List TestRow) (tid : String) : Option String :=
  (findTest db tid).map (·.name)

/-- Empty-value sentinel substitution performed by the `Test.value`
property: an empty stored value reads back as `"DNP"`. -/
def dnpSub (v : String) : String :=
  if v == "" then "DNP" else v

/-- `Test.value` property: `SELECT Value FROM Tests WHERE TestID=?`, with
`""` mapped to `"DNP"`. -/
def testValue (db : List TestRow) (tid : String) : Option String :=
  (findTest db tid).map (fun r => dnpSub r.value)

/-- First `Players` row with the given `ID`. -/
def findPlayer (db : List PlayerRow) (pid : String) : Option PlayerRow :=
  db.find? (fun r => r.id == pid)

/-- `Player.name` property. -/
def playerName (s : Store) (pid : String) : Option String :=
  (findPlayer s.players pid).map (·.name)

/-- `Player.pos` property. -/
def playerPos (s : Store) (pid : String) : Option String :=
  (findPlayer s.players pid).map (·.pos)

/-- `Player.ht` property. -/
def playerHt (s : Store) (pid : String) : Option String :=
  (findPlayer s.players pid).map (·.ht)

/-- `Player.wt` property. -/
def playerWt (s : Store) (pid : String) : Option String :=
  (findPlayer s.players pid).map (·.wt)

/-- `Player.year` property. -/
def playerYear (s : Store) (pid : String) : Option String :=
  (findPlayer s.players pid).map (·.year)

/-- `Player.team` property: `""` reads back as the `"Undrafted"` sentinel. -/
def playerTeam (s : Store) (pid : String) : Option String :=
  (findPlayer s.players pid).map (fun r => if r.team == "" then "Undrafted" else r.team)

/-- `Player.was_drafted()`: true iff the `team` property is not
`"Undrafted"`. -/
def wasDrafted (s : Store) (pid : String) : Option Bool :=
  (playerTeam s pid).map (fun t => t != "Undrafted")

/-- Digit characters to the natural number they spell (`foldl`-style,
most significant first). -/
def digitsToNat (cs : List Char) : ℕ :=
  cs.foldl (fun acc c => acc * 10 + (c.toNat - 48)) 0

/-- Python's `float(s)` on the strings this program feeds it: an optional
sign, then a decimal literal with digits around at most one point.  Returns
`none` exactly when Python would raise `ValueError` (e.g. on `""`). -/
def pyFloat? (s : String) : Option ℚ :=
  let cs := s.toList
  let signed : ℚ × List Char :=
    match cs with
    | '-' :: rest => (-1, rest)
    | '+' :: rest => (1, rest)
    | _ => (1, cs)
  let intPart := signed.2.takeWhile (fun c => c != '.')
  let rest := signed.2.dropWhile (fun c => c != '.')
  let fracPart := rest.drop 1
  if (intPart ++ fracPart) != [] && intPart.all Char.isDigit
      && fracPart.all Char.isDigit then
    some (signed.1 * ((digitsToNat intPart : ℚ)
      + (digitsToNat fracPart : ℚ) / ((10 : ℚ) ^ fracPart.length)))
  else
    none

/-- Python's `round` to an integer: round half to even. -/
def pyRoundInt (q : ℚ) : ℤ :=
  if q - (⌊q⌋ : ℚ) < 1/2 then ⌊q⌋
  else if 1/2 < q - (⌊q⌋ : ℚ) then ⌊q⌋ + 1
  else if ⌊q⌋ % 2 = 0 then ⌊q⌋ else ⌊q⌋ + 1

/-- Python's `round(x, 2)`. -/
def round2 (q : ℚ) : ℚ :=
  ((pyRoundInt (q * 100) : ℚ) / 100)

/-- `Player.get_score`: scan the owned tests in order; whenever one's
`name` property equals `test_name`, overwrite `score` with its `value`
property; `score` starts as `""`.  `none` models the `IndexError` raised
when an owned test id has no row in the database. -/
def getScoreAux (db : List TestRow) (tn : String) (score : String) :
    List String → Option String
  | [] => some score
  | tid :: rest => do
      let n ← testName db tid
      if n == tn then do
        let v ← testValue db tid
        getScoreAux db tn v rest
      else
        getScoreAux db tn score rest

/-- `Player.get_score(test_name)`. -/
def getScore (db : List TestRow) (p : PlayerEnt) (tn : String) : Option String :=
  getScoreAux db tn "" p.ownedTests

/-- The comparison population of `get_percentile`: the `Value` column of
`SELECT ... FROM Tests WHERE Name=? AND Year=?`, with `AND Pos=?` (the
player's own `pos` property) added when `group != "draft_class"`. -/
def population (s : Store) (p : PlayerEnt) (tn year group : String) :
    Except PyErr (List String) :=
  if group != "draft_class" then do
    let pos ← ofOption (playerPos s p.id) .indexError
    pure ((s.tests.filter
      (fun t => t.name == tn && t.year == year && t.pos == pos)).map (·.value))
  else
    pure ((s.tests.filter
      (fun t => t.name == tn && t.year == year)).map (·.value))

/-- The `[float(value[0]) for value in values if value[0] != ""]`
comprehension: drop empty strings, coerce the rest with `float` (raising
`ValueError` on a non-numeric survivor). -/
def coerceValues : List String → Except PyErr (List ℚ)
  | [] => .ok []
  | v :: vs =>
      if v == "" then coerceValues vs
      else do
        let x ← ofOption (pyFloat? v) .valueError
        let xs ← coerceValues vs
        pure (x :: xs)

/-- Result of `Player.get_percentile`: either the informational string for
a "DNP" score, or the numeric percentile. -/
inductive PercOut where
  | msg (s : String)
  | num (q : ℚ)
  deriving DecidableEq, Repr

/-- `Player.get_percentile(test_name, year, group)`. -/
def getPercentile (s : Store) (p : PlayerEnt) (tn year group : String) :
    Except PyErr PercOut := do
  let scoreStr ← ofOption (getScore s.tests p tn) .indexError
  if scoreStr == "DNP" then do
    let nm ← ofOption (playerName s p.id) .indexError
    pure (.msg (nm ++ " did not take this performance test!"))
  else do
    let scoreFloat ← ofOption (pyFloat? scoreStr) .valueError
    let values ← population s p tn year group
    let goodValues ← coerceValues values
    let count := (goodValues.filter (fun v => scoreFloat ≤ v)).length
    if goodValues.length == 0 then
      .error .zeroDivisionError
    else
      pure (.num (round2 (((count : ℚ) / (goodValues.length : ℚ)) * 100)))

/-- The `id` setter of `Player` (and of `__init__`, which assigns through
it): a value that `isinstance(id, str)` accepts is stored, anything else
raises `ValueError('"id" must be a string')`.  `PyVal` models the dynamic
argument: a string or a value of any other runtime type. -/
inductive PyVal where
  | str (s : String)
  | nonStr
  deriving DecidableEq, Repr

/-- The `Player.id` property setter applied after construction. -/
def setId (p : PlayerEnt) (v : PyVal) : Except PyErr PlayerEnt :=
  match v with
  | .str s => .ok { p with id := s }
  | .nonStr => .error .valueError

/-- `Player.__init__(id)`: runs the `id` setter, then `tests = []`. -/
def mkPlayer (v : PyVal) : Except PyErr PlayerEnt :=
  match v with
  | .str s => .ok { id := s, ownedTests := [] }
  | .nonStr => .error .valueError

/-- One data line of the player input file after `split("\t")` and
`dict(zip(...))`: the columns `parse_data` reads out of `temp`. -/
structure PlayerFileRow where
  pfrId : String
  player : String
  pos : String
  ht : String
  wt : String
  year : String
  team : String
  round : String
  pick : String
  deriving DecidableEq, Repr

/-- One data line of the test input file after `split("\t")` and
`dict(zip(...))`: the columns `parse_data` reads out of `temp_t`. -/
structure TestFileRow where
  pfrId : String
  pos : String
  year : String
  test : String
  value : String
  deriving DecidableEq, Repr

/-- Python-dict insertion into an association list: overwrite in place if
the key exists, append otherwise. -/
def dictInsert (k : String) (v : PlayerEnt) :
    List (String × PlayerEnt) → List (String × PlayerEnt)
  | [] => [(k, v)]
  | (k', v') :: rest =>
      if k' == k then (k, v) :: rest else (k', v') :: dictInsert k v rest

/-- Python-dict lookup in an association list. -/
def dictGet? (k : String) : List (String × PlayerEnt) → Option PlayerEnt
  | [] => none
  | (k', v') :: rest => if k' == k then some v' else dictGet? k rest

/-- What `parse_data` produces: the populated database and the returned
`dict[str, Player]`. -/
structure ParseOut where
  db : Store
  records : List (String × PlayerEnt)
  deriving DecidableEq, Repr

/-- The test-file loop of `parse_data`: for each test line build
`test_id = Pfr_ID + "_" + Test`, insert the `Tests` row, then
`player_dict[temp_t["Pfr_ID"]].add_test(...)` — raising `KeyError` when the
player id is not a key of the dict. -/
def testLoop (dict : List (String × PlayerEnt)) :
    List TestFileRow → Except PyErr (List (String × PlayerEnt) × List TestRow)
  | [] => .ok (dict, [])
  | r :: rs =>
      let tid := r.pfrId ++ "_" ++ r.test
      let row : TestRow :=
        { testId := tid, playerId := r.pfrId, pos := r.pos,
          name := r.test, value := r.value, year := r.year }
      match dictGet? r.pfrId dict with
      | none => .error .keyError
      | some pl =>
          let dict' := dictInsert r.pfrId
            { pl with ownedTests := pl.ownedTests ++ [tid] } dict
          match testLoop dict' rs with
          | .error e => .error e
          | .ok (d, rows) => .ok (d, row :: rows)

/-- `parse_data(player_filename, test_filename)`, taking the two files as
already-split rows (line parsing and the header `zip` are the out-of-scope
I/O layer): build one `Player` per player line and one `Players` row, then
run the test loop; an orphan test row aborts the whole ingestion with
`KeyError` and nothing is returned. -/
def parseData (playerRows : List PlayerFileRow) (testRows : List TestFileRow) :
    Except PyErr ParseOut :=
  let pdict := playerRows.foldl
    (fun d r => dictInsert r.pfrId { id := r.pfrId, ownedTests := [] } d) []
  let playersTable : List PlayerRow := playerRows.map (fun r =>
    { id := r.pfrId, name := r.player, pos := r.pos, ht := r.ht, wt := r.wt,
      year := r.year, team := r.team, round := r.round, pick := r.pick })
  match testLoop pdict testRows with
  | .error e => .error e
  | .ok (d, testsTable) =>
      .ok { db := { players := playersTable, tests := testsTable },
            records := d }

/-- A cell of a pandas `DataFrame` row: the string cells ("Draft Status",
"Pos") or the `float(...)` cells. -/
inductive Cell where
  | str (s : String)
  | num (q : ℚ)
  deriving DecidableEq, Repr

/-- A `DataFrame`: named columns and rows of cells. -/
structure Frame where
  columns : List String
  rows : List (List Cell)
  deriving DecidableEq, Repr

/-- The `tests` list shared by all five plotting functions. -/
def testVars : List String :=
  ["Forty", "Vertical", "BenchReps", "BroadJump", "Cone", "Shuttle"]

/-- Variable resolution shared by all five plotting functions: a test name
goes through `get_score`, otherwise `traits[var]` (raising `KeyError` for a
name that is neither a test nor `"Height"`/`"Weight"`) selects the `ht` or
`wt` attribute. -/
def resolveVar (s : Store) (p : PlayerEnt) (var : String) :
    Except PyErr String :=
  if var ∈ testVars then
    ofOption (getScore s.tests p var) .indexError
  else if var == "Height" then
    ofOption (playerHt s p.id) .indexError
  else if var == "Weight" then
    ofOption (playerWt s p.id) .indexError
  else
    .error .keyError

/-- The year/position player filter shared by all five plotting functions:
`player.year == year and player.pos == pos` (the position conjunct only
when a position was passed, and only evaluated when the year matches). -/
def filterPlayers (s : Store) (year : String) (pos : Option String) :
    List PlayerEnt → Except PyErr (List PlayerEnt)
  | [] => .ok []
  | p :: rest => do
      let py ← ofOption (playerYear s p.id) .indexError
      let keep ←
        match pos with
        | none => pure (py == year)
        | some ps =>
            if py == year then do
              let pp ← ofOption (playerPos s p.id) .indexError
              pure (pp == ps)
            else
              pure false
      let tail ← filterPlayers s year pos rest
      pure (if keep then p :: tail else tail)

/-- The draft-status tag of an emitted row. -/
def statusCell (drafted : Bool) : Cell :=
  .str (if drafted then "Drafted" else "Undrafted")

/-- Per-player loop body of `barplot` / `histogram` / `boxplot` (the three
single-variable functions share this code verbatim): resolve the variable;
a `"DNP"` value contributes no row, anything else contributes the single
row `[status, float(value)]`. -/
def singleVarPlayerRows (s : Store) (var : String) (p : PlayerEnt) :
    Except PyErr (List (List Cell)) := do
  let value ← resolveVar s p var
  if value != "DNP" then do
    let drafted ← ofOption (wasDrafted s p.id) .indexError
    let x ← ofOption (pyFloat? value) .valueError
    pure [[statusCell drafted, .num x]]
  else
    pure []

/-- Per-player loop body of `scatterplot`: resolve both variables; a `"DNP"`
on either contributes no row, otherwise the single row
`[status, float(val_one), float(val_two)]`. -/
def scatterPlayerRows (s : Store) (varOne varTwo : String) (p : PlayerEnt) :
    Except PyErr (List (List Cell)) := do
  let valOne ← resolveVar s p varOne
  let valTwo ← resolveVar s p varTwo
  if valOne != "DNP" && valTwo != "DNP" then do
    let drafted ← ofOption (wasDrafted s p.id) .indexError
    let x1 ← ofOption (pyFloat? valOne) .valueError
    let x2 ← ofOption (pyFloat? valTwo) .valueError
    pure [[statusCell drafted, .num x1, .num x2]]
  else
    pure []

/-- Per-player loop body of `kmeans`: like `scatterplot` but the row also
carries `player.pos`: `[status, pos, float(val_one), float(val_two)]`. -/
def kmeansPlayerRows (s : Store) (varOne varTwo : String) (p : PlayerEnt) :
    Except PyErr (List (List Cell)) := do
  let valOne ← resolveVar s p varOne
  let valTwo ← resolveVar s p varTwo
  if valOne != "DNP" && valTwo != "DNP" then do
    let drafted ← ofOption (wasDrafted s p.id) .indexError
    let pp ← ofOption (playerPos s p.id) .indexError
    let x1 ← ofOption (pyFloat? valOne) .valueError
    let x2 ← ofOption (pyFloat? valTwo) .valueError
    pure [[statusCell drafted, .str pp, .num x1, .num x2]]
  else
    pure []

/-- The assembled single-variable `DataFrame` (columns
`["Draft Status", var]`) of `barplot` / `histogram` / `boxplot`, before
any grouping. -/
def singleVarFrame (var year : String) (recs : Store × List PlayerEnt)
    (pos : Option String) : Except PyErr Frame := do
  let players ← filterPlayers recs.1 year pos recs.2
  let rowss ← players.mapM (singleVarPlayerRows recs.1 var)
  pure { columns := ["Draft Status", var], rows := rowss.flatten }

/-- `histogram` returns its assembled `DataFrame` unchanged. -/
def histogram (var year : String) (recs : Store × List PlayerEnt)
    (pos : Option String) : Except PyErr Frame :=
  singleVarFrame var year recs pos

/-- `boxplot` returns its assembled `DataFrame` unchanged. -/
def boxplot (var year : String) (recs : Store × List PlayerEnt)
    (pos : Option String) : Except PyErr Frame :=
  singleVarFrame var year recs pos

/-- Ordered insertion used to model the sorted group keys of a pandas
`groupby`. -/
def insertSorted (s : String) : List String → List String
  | [] => [s]
  | t :: ts => if s ≤ t then s :: t :: ts else t :: insertSorted s ts

/-- The distinct first-cell strings of the rows, in sorted order (pandas
`groupby` sorts its keys). -/
def sortedKeys (rows : List (List Cell)) : List String :=
  (rows.foldl (fun acc r =>
    match r with
    | .str s :: _ => if s ∈ acc then acc else insertSorted s acc
    | _ => acc) [])

/-- `groupby(["Draft Status"], as_index=False).mean()`: one output row per
observed status, carrying the arithmetic mean of the numeric column. -/
def groupbyMean (df : Frame) : Frame :=
  { columns := df.columns,
    rows := (sortedKeys df.rows).map (fun k =>
      let vals := df.rows.filterMap (fun r =>
        match r with
        | .str s :: .num q :: _ => if s == k then some q else none
        | _ => none)
      [.str k, .num (vals.sum / (vals.length : ℚ))]) }

/-- `barplot` returns the grouped mean of its assembled `DataFrame`. -/
def barplot (var year : String) (recs : Store × List PlayerEnt)
    (pos : Option String) : Except PyErr Frame := do
  let df ← singleVarFrame var year recs pos
  pure (groupbyMean df)

/-- `scatterplot` returns its assembled `DataFrame` (columns
`["Draft Status", var_one, var_two]`) unchanged. -/
def scatterplot (varOne varTwo year : String) (recs : Store × List PlayerEnt)
    (pos : Option String) : Except PyErr Frame := do
  let players ← filterPlayers recs.1 year pos recs.2
  let rowss ← players.mapM (scatterPlayerRows recs.1 varOne varTwo)
  pure { columns := ["Draft Status", varOne, varTwo], rows := rowss.flatten }

/-- `data_frame["..."] = cells`: append a column and extend each row with
its cell. -/
def addColumn (df : Frame) (name : String) (cells : List Cell) : Frame :=
  { columns := df.columns ++ [name],
    rows := (df.rows.zip cells).map (fun rc => rc.1 ++ [rc.2]) }

/-- `kmeans` assembles a `["Draft Status", "Pos", var_one, var_two]` frame,
then adds the `Cluster`, `Centroid_X`, `Centroid_Y` and `Color` columns
before returning it.  The cluster assignment, the centroid coordinates and
the palette colours are produced by the external sklearn / seaborn
collaborators, so they are taken as parameters (`assign`, `cent`, `color`);
only the shape of the returned frame is modelled. -/
def kmeans (assign : List (List Cell) → List ℕ) (cent : ℕ → ℚ × ℚ)
    (color : ℕ → String) (varOne varTwo year : String)
    (recs : Store × List PlayerEnt) (pos : Option String) :
    Except PyErr Frame := do
  let players ← filterPlayers recs.1 year pos recs.2
  let rowss ← players.mapM (kmeansPlayerRows recs.1 varOne varTwo)
  let base : Frame :=
    { columns := ["Draft Status", "Pos", varOne, varTwo], rows := rowss.flatten }
  let clusters := assign base.rows
  let df := addColumn base "Cluster" (clusters.map (fun c => .num (c : ℚ)))
  let df := addColumn df "Centroid_X" (clusters.map (fun c => .num (cent c).1))
  let df := addColumn df "Centroid_Y" (clusters.map (fun c => .num (cent c).2))
  let df := addColumn df "Color" (clusters.map (fun c => .str (color c)))
  pure df

/-!
The fixture of the repository's unit tests (`PLAYER_FILE` / `TEST_FILE` in
`test_nfl_scout_utils.py`): three players of the 2000 draft class and their
six combine tests each.  Used as concrete input for witnesses and
counterexamples.
-/

/-- The player file of the unit tests, as parsed rows. -/
def fxPlayerRows : List PlayerFileRow :=
  [ { pfrId := "John Abraham_2000", player := "John Abraham", pos := "OLB",
      ht := "76", wt := "252", year := "2000", team := "New York Jets",
      round := "1", pick := "13" },
    { pfrId := "Shaun Alexander_2000", player := "Shaun Alexander", pos := "RB",
      ht := "72", wt := "218", year := "2000", team := "Seattle Seahawks",
      round := "1", pick := "19" },
    { pfrId := "Corey Atkins_2000", player := "Corey Atkins", pos := "OLB",
      ht := "72", wt := "237", year := "2000", team := "", round := "",
      pick := "" } ]

/-- One line of the test file of the unit tests. -/
def fxT (pid pos tn val : String) : TestFileRow :=
  { pfrId := pid, pos := pos, year := "2000", test := tn, value := val }

/-- The test file of the unit tests, as parsed rows. -/
def fxTestRows : List TestFileRow :=
  [ fxT "John Abraham_2000" "OLB" "Forty" "4.55",
    fxT "John Abraham_2000" "OLB" "Vertical" "",
    fxT "John Abraham_2000" "OLB" "BenchReps" "",
    fxT "John Abraham_2000" "OLB" "BroadJump" "",
    fxT "John Abraham_2000" "OLB" "Cone" "",
    fxT "John Abraham_2000" "OLB" "Shuttle" "",
    fxT "Shaun Alexander_2000" "RB" "Forty" "4.58",
    fxT "Shaun Alexander_2000" "RB" "Vertical" "",
    fxT "Shaun Alexander_2000" "RB" "BenchReps" "",
    fxT "Shaun Alexander_2000" "RB" "BroadJump" "",
    fxT "Shaun Alexander_2000" "RB" "Cone" "",
    fxT "Shaun Alexander_2000" "RB" "Shuttle" "",
    fxT "Corey Atkins_2000" "OLB" "Forty" "4.72",
    fxT "Corey Atkins_2000" "OLB" "Vertical" "31",
    fxT "Corey Atkins_2000" "OLB" "BenchReps" "21",
    fxT "Corey Atkins_2000" "OLB" "BroadJump" "112",
    fxT "Corey Atkins_2000" "OLB" "Cone" "7.96",
    fxT "Corey Atkins_2000" "OLB" "Shuttle" "4.39" ]

/-- The test ids a fixture player owns after ingestion. -/
def fxTids (pid : String) : List String :=
  [pid ++ "_Forty", pid ++ "_Vertical", pid ++ "_BenchReps",
   pid ++ "_BroadJump", pid ++ "_Cone", pid ++ "_Shuttle"]

/-- The `Player` object for John Abraham after ingestion. -/
def john : PlayerEnt :=
  { id := "John Abraham_2000", ownedTests := fxTids "John Abraham_2000" }

/-- The `Player` object for Shaun Alexander after ingestion. -/
def shaun : PlayerEnt :=
  { id := "Shaun Alexander_2000", ownedTests := fxTids "Shaun Alexander_2000" }

/-- The `Player` object for Corey Atkins after ingestion. -/
def corey : PlayerEnt :=
  { id := "Corey Atkins_2000", ownedTests := fxTids "Corey Atkins_2000" }

/-- The database after ingesting the fixture. -/
def fxStore : Store :=
  { players := fxPlayerRows.map (fun r =>
      { id := r.pfrId, name := r.player, pos := r.pos, ht := r.ht, wt := r.wt,
        year := r.year, team := r.team, round := r.round, pick := r.pick }),
    tests := fxTestRows.map (fun r =>
      { testId := r.pfrId ++ "_" ++ r.test, playerId := r.pfrId, pos := r.pos,
        name := r.test, value := r.value, year := r.year }) }

/-- Sanity: `parse_data` on the fixture produces exactly `fxStore` and the
three `Player` objects. -/
theorem fixture_parse :
    parseData fxPlayerRows fxTestRows =
      .ok { db := fxStore,
            records := [("John Abraham_2000", john),
                        ("Shaun Alexander_2000", shaun),
                        ("Corey Atkins_2000", corey)] } := by
  decide

/-!
Helper lemmas about the percentile engine.
-/

/-- Reduction of `get_percentile` on the non-"DNP" path: with the score
resolved, parsed, and the population coerced, the result is the
zero-division error on an empty population and otherwise the rounded
count-over-size ratio scaled to 100. -/
theorem getPercentile_eq (s : Store) (p : PlayerEnt) (tn year group str : String)
    (x : ℚ) (vals : List String) (gvs : List ℚ)
    (hs : getScore s.tests p tn = some str) (hdnp : str ≠ "DNP")
    (hf : pyFloat? str = some x) (hpop : population s p tn year group = .ok vals)
    (hcv : coerceValues vals = .ok gvs) :
    getPercentile s p tn year group =
      if gvs.length == 0 then .error .zeroDivisionError
      else .ok (.num (round2 ((((gvs.filter (fun v => x ≤ v)).length : ℚ) /
        (gvs.length : ℚ)) * 100))) := by
  have hb : (str == "DNP") = false := beq_eq_false_iff_ne.mpr hdnp
  simp only [getPercentile, hs, ofOption, Except.bind, hb, hf, hpop, hcv, bind,
    Bind.bind, pure, Pure.pure, Except.pure, Bool.false_eq_true, if_false]

/-- Evaluation form of the numeric branch of `get_percentile`, with the
integer rounding step exposed as a hypothesis so concrete runs can be
checked by computation. -/
theorem getPercentile_num_eval (s : Store) (p : PlayerEnt)
    (tn year group str : String) (x : ℚ) (vals : List String) (gvs : List ℚ)
    (m : ℤ)
    (hs : getScore s.tests p tn = some str) (hdnp : str ≠ "DNP")
    (hf : pyFloat? str = some x) (hpop : population s p tn year group = .ok vals)
    (hcv : coerceValues vals = .ok gvs) (hne : gvs.length ≠ 0)
    (hm : pyRoundInt ((((gvs.filter (fun v => x ≤ v)).length : ℚ) /
      (gvs.length : ℚ)) * 100 * 100) = m) :
    getPercentile s p tn year group = .ok (.num ((m : ℚ) / 100)) := by
  have h := getPercentile_eq s p tn year group str x vals gvs hs hdnp hf hpop hcv
  rw [h, show (gvs.length == 0) = false from beq_eq_false_iff_ne.mpr hne]
  simp only [Bool.false_eq_true, if_false]
  rw [round2, hm]

/-- Inversion: a numeric `get_percentile` result can only come from the
final branch, with a resolved non-"DNP" parsed score and a non-empty
coerced population. -/
theorem getPercentile_num_inv (s : Store) (p : PlayerEnt) (tn year group : String)
    (q : ℚ) (h : getPercentile s p tn year group = .ok (.num q)) :
    ∃ str x vals gvs, getScore s.tests p tn = some str ∧ (str == "DNP") = false ∧
      pyFloat? str = some x ∧ population s p tn year group = .ok vals ∧
      coerceValues vals = .ok gvs ∧ gvs.length ≠ 0 ∧
      q = round2 ((((gvs.filter (fun v => x ≤ v)).length : ℚ) /
        (gvs.length : ℚ)) * 100) := by
  cases hs : getScore s.tests p tn with
  | none => simp [getPercentile, hs, ofOption, Except.bind, bind, Bind.bind] at h
  | some str =>
    by_cases hb : (str == "DNP") = true
    · cases hn : playerName s p.id with
      | none =>
          simp [getPercentile, hs, hn, hb, ofOption, Except.bind, bind,
            Bind.bind] at h
      | some nm =>
          simp [getPercentile, hs, hn, hb, ofOption, Except.bind, bind,
            Bind.bind, pure, Pure.pure, Except.pure] at h
    · have hb' : (str == "DNP") = false := by simpa using hb
      cases hf : pyFloat? str with
      | none =>
          simp [getPercentile, hs, hb', hf, ofOption, Except.bind, bind,
            Bind.bind] at h
      | some x =>
        cases hpop : population s p tn year group with
        | error e =>
            simp [getPercentile, hs, hb', hf, hpop, ofOption, Except.bind,
              bind, Bind.bind] at h
        | ok vals =>
          cases hcv : coerceValues vals with
          | error e =>
              simp [getPercentile, hs, hb', hf, hpop, hcv, ofOption,
                Except.bind, bind, Bind.bind] at h
          | ok gvs =>
            by_cases hlen : (gvs.length == 0) = true
            · simp [getPercentile, hs, hb', hf, hpop, hcv, hlen, ofOption,
                Except.bind, bind, Bind.bind] at h
            · have hlen' : gvs.length ≠ 0 := by simpa using hlen
              refine ⟨str, x, vals, gvs, rfl, hb', hf, rfl, hcv, hlen', ?_⟩
              simp [getPercentile, hs, hb', hf, hpop, hcv, ofOption,
                Except.bind, bind, Bind.bind, pure, Pure.pure, Except.pure,
                hlen'] at h
              exact h.symm

/-- Python's integer `round` never goes below a lower bound of 0. -/
theorem pyRoundInt_nonneg (q : ℚ) (h : 0 ≤ q) : 0 ≤ pyRoundInt q := by
  have hf : (0 : ℤ) ≤ ⌊q⌋ := by
    rw [Int.le_floor]
    exact_mod_cast h
  unfold pyRoundInt
  split
  · exact hf
  · split
    · omega
    · split <;> omega

/-- Python's integer `round` never exceeds an integer upper bound. -/
theorem pyRoundInt_le (q : ℚ) (n : ℤ) (h : q ≤ n) : pyRoundInt q ≤ n := by
  have hf : ⌊q⌋ ≤ n := (Int.floor_le_floor h).trans_eq (Int.floor_intCast n)
  unfold pyRoundInt
  split
  · exact hf
  · rename_i h1
    push_neg at h1
    have hq : (⌊q⌋ : ℚ) + 1/2 ≤ q := by linarith
    have hlt : ⌊q⌋ < n := by
      by_contra hc
      push_neg at hc
      have hcq : (n : ℚ) ≤ (⌊q⌋ : ℚ) := by exact_mod_cast hc
      have := Int.floor_le q
      linarith
    split
    · omega
    · split <;> omega

/-- `round(x, 2)` stays inside `[0, 100]` when `x` does. -/
theorem round2_bounds (x : ℚ) (h0 : 0 ≤ x) (h1 : x ≤ 100) :
    0 ≤ round2 x ∧ round2 x ≤ 100 := by
  have hn : 0 ≤ pyRoundInt (x * 100) := pyRoundInt_nonneg _ (by linarith)
  have hl : pyRoundInt (x * 100) ≤ 10000 := pyRoundInt_le _ 10000 (by push_cast; linarith)
  unfold round2
  constructor
  · positivity
  · rw [div_le_iff₀ (by norm_num)]
    calc (pyRoundInt (x * 100) : ℚ) ≤ 10000 := by exact_mod_cast hl
    _ = 100 * 100 := by norm_num

/-- A store with one player who took no test at all: his `Players` row
exists but the `Tests` table has no row of his. -/
def nobodyStore : Store :=
  { players := [{ id := "Nobody_2000", name := "No Body", pos := "QB",
                  ht := "75", wt := "220", year := "2000", team := "",
                  round := "", pick := "" }],
    tests := [] }

/-- The `Player` object for the no-test player. -/
def nobody : PlayerEnt := { id := "Nobody_2000", ownedTests := [] }

/-- C1 (counterexample): Corey Atkins holds the single numerically highest
`Forty` value (4.72, against 4.55 and 4.58) of the 2000 draft class, yet
`get_percentile` returns 33.33, not 100.0: the formula counts population
values greater than or equal to the player's own, so the highest value is
counted once, not `n` times. -/
theorem percentile_highest_value_not_100 :
    getScore fxStore.tests corey "Forty" = some "4.72" ∧
    pyFloat? "4.72" = some (118/25) ∧
    population fxStore corey "Forty" "2000" "draft_class" =
      .ok ["4.55", "4.58", "4.72"] ∧
    coerceValues ["4.55", "4.58", "4.72"] = .ok [91/20, 229/50, 118/25] ∧
    ((91 : ℚ)/20 < 118/25 ∧ (229 : ℚ)/50 < 118/25) ∧
    getPercentile fxStore corey "Forty" "2000" "draft_class" =
      .ok (.num (3333/100)) ∧
    ((3333 : ℚ)/100) ≠ 100 := by
  have h := getPercentile_num_eval fxStore corey "Forty" "2000" "draft_class"
    "4.72" (118/25) ["4.55", "4.58", "4.72"] [91/20, 229/50, 118/25] 3333
    (by decide) (by decide) (by with_unfolding_all decide) (by decide)
    (by with_unfolding_all decide) (by decide) (by with_unfolding_all decide)
  have hc : (((3333 : ℤ) : ℚ)) / 100 = 3333/100 := by norm_num
  rw [hc] at h
  exact ⟨by decide, by with_unfolding_all decide, by decide,
    by with_unfolding_all decide,
    ⟨by with_unfolding_all decide, by with_unfolding_all decide⟩, h,
    by norm_num⟩

/-- C1 (amended): for every player whose `get_score` result is a non-DNP
numeric string and whose comparison population, after discarding empty
values, is non-empty, `get_percentile` returns
`round(100 * count(population value >= score) / count(population), 2)`; in
particular, when the player holds the numerically LOWEST raw value in the
population (every population value is greater than or equal to theirs), the
result is exactly 100. -/
theorem percentile_formula_and_lowest_boundary
    (s : Store) (p : PlayerEnt) (tn year group str : String) (x : ℚ)
    (vals : List String) (gvs : List ℚ)
    (hs : getScore s.tests p tn = some str) (hdnp : str ≠ "DNP")
    (hf : pyFloat? str = some x) (hpop : population s p tn year group = .ok vals)
    (hcv : coerceValues vals = .ok gvs) (hne : gvs ≠ []) :
    getPercentile s p tn year group =
      .ok (.num (round2 (100 * ((gvs.filter (fun v => x ≤ v)).length : ℚ) /
        (gvs.length : ℚ)))) ∧
    ((∀ v ∈ gvs, x ≤ v) → getPercentile s p tn year group = .ok (.num 100)) := by
  have hlen0 : gvs.length ≠ 0 := by simpa [List.length_eq_zero] using hne
  have hlen : (gvs.length == 0) = false := by simpa using hlen0
  have h := getPercentile_eq s p tn year group str x vals gvs hs hdnp hf hpop hcv
  rw [hlen] at h
  simp only [Bool.false_eq_true, if_false] at h
  constructor
  · rw [h]
    have harith : (((gvs.filter (fun v => x ≤ v)).length : ℚ) /
        (gvs.length : ℚ)) * 100 =
        100 * ((gvs.filter (fun v => x ≤ v)).length : ℚ) / (gvs.length : ℚ) := by
      ring
    rw [harith]
  · intro hall
    have hfilter : gvs.filter (fun v => x ≤ v) = gvs :=
      List.filter_eq_self.mpr (fun a ha => decide_eq_true (hall a ha))
    rw [h, hfilter]
    have hn0 : (gvs.length : ℚ) ≠ 0 := Nat.cast_ne_zero.mpr hlen0
    have hone : ((gvs.length : ℚ) / (gvs.length : ℚ)) * 100 = 100 := by
      rw [div_self hn0]
      ring
    rw [hone]
    have h100 : round2 100 = 100 := by
      rw [round2, show pyRoundInt ((100 : ℚ) * 100) = 10000 from by
        with_unfolding_all decide]
      norm_num
    rw [h100]

/-- C1 (witness): John Abraham has the lowest `Forty` value of the fixture
draft class and his percentile is exactly 100, the repository's own unit
test case. -/
theorem percentile_formula_and_lowest_boundary_witness :
    getPercentile fxStore john "Forty" "2000" "draft_class" = .ok (.num 100) :=
  (percentile_formula_and_lowest_boundary fxStore john "Forty" "2000"
    "draft_class" "4.55" (91/20) ["4.55", "4.58", "4.72"]
    [91/20, 229/50, 118/25] (by decide) (by decide)
    (by with_unfolding_all decide) (by decide)
    (by with_unfolding_all decide) (by with_unfolding_all decide)).2
    (by with_unfolding_all decide)

/-- C2 (counterexample): for a player who did not take a test in the sense
that no owned test record with that name exists at all, `get_score` yields
`""` (not `"DNP"`), so `get_percentile` reaches `float("")` and raises a
`ValueError` instead of returning an informational string. -/
theorem percentile_missing_test_raises :
    getScore nobodyStore.tests nobody "Forty" = some "" ∧
    getPercentile nobodyStore nobody "Forty" "2000" "draft_class" =
      .error .valueError := by
  constructor
  · decide
  · with_unfolding_all decide

/-- C2 (amended): for every player and every test whose `get_score` result
is the `"DNP"` sentinel (an owned test record with an empty value),
`get_percentile` returns the informational string and raises nothing; but
for a test with no owned record at all `get_score` yields `""` and
`get_percentile` raises `ValueError`. -/
theorem percentile_dnp_message (s : Store) (p : PlayerEnt)
    (tn year group nm : String)
    (hs : getScore s.tests p tn = some "DNP")
    (hn : playerName s p.id = some nm) :
    getPercentile s p tn year group =
      .ok (.msg (nm ++ " did not take this performance test!")) := by
  simp [getPercentile, hs, hn, ofOption, Except.bind, bind, Bind.bind, pure,
    Pure.pure, Except.pure]

/-- C2 (witness): John Abraham's `Vertical` record has an empty value, so
his percentile query returns the informational message. -/
theorem percentile_dnp_message_witness :
    getPercentile fxStore john "Vertical" "2000" "draft_class" =
      .ok (.msg "John Abraham did not take this performance test!") :=
  (percentile_dnp_message fxStore john "Vertical" "2000" "draft_class"
    "John Abraham" (by decide) (by decide)).trans (by decide)

/-- C4 (confirmed): with a non-DNP numeric score and a comparison
population that is empty after discarding empty values, `get_percentile`
raises `ZeroDivisionError`; it never returns a number. -/
theorem percentile_empty_population_zero_division
    (s : Store) (p : PlayerEnt) (tn year group str : String) (x : ℚ)
    (vals : List String)
    (hs : getScore s.tests p tn = some str) (hdnp : str ≠ "DNP")
    (hf : pyFloat? str = some x) (hpop : population s p tn year group = .ok vals)
    (hcv : coerceValues vals = .ok []) :
    getPercentile s p tn year group = .error .zeroDivisionError ∧
    ∀ q, getPercentile s p tn year group ≠ .ok (.num q) := by
  have h := getPercentile_eq s p tn year group str x vals [] hs hdnp hf hpop hcv
  simp only [List.length_nil, beq_self_eq_true, if_true] at h
  refine ⟨h, fun q hq => ?_⟩
  rw [h] at hq
  exact Except.noConfusion hq

/-- C4 (witness): John Abraham took the `Forty` in 2000; against the empty
1999 population the query raises `ZeroDivisionError`. -/
theorem percentile_empty_population_zero_division_witness :
    getPercentile fxStore john "Forty" "1999" "draft_class" =
      .error .zeroDivisionError :=
  (percentile_empty_population_zero_division fxStore john "Forty" "1999"
    "draft_class" "4.55" (91/20) [] (by decide) (by decide)
    (by with_unfolding_all decide) (by decide) (by decide)).1

/-- C10 (confirmed): whenever `get_percentile` returns a number, that
number lies in the closed interval `[0, 100]`. -/
theorem percentile_num_in_range (s : Store) (p : PlayerEnt)
    (tn year group : String) (q : ℚ)
    (h : getPercentile s p tn year group = .ok (.num q)) :
    0 ≤ q ∧ q ≤ 100 := by
  obtain ⟨str, x, vals, gvs, hs, hb, hf, hpop, hcv, hlen, hq⟩ :=
    getPercentile_num_inv s p tn year group q h
  subst hq
  have hcn : ((gvs.filter (fun v => x ≤ v)).length : ℚ) ≤ (gvs.length : ℚ) := by
    exact_mod_cast List.length_filter_le _ gvs
  have hn0 : (0 : ℚ) < (gvs.length : ℚ) := by
    exact_mod_cast Nat.pos_of_ne_zero hlen
  have h0 : 0 ≤ (((gvs.filter (fun v => x ≤ v)).length : ℚ) /
      (gvs.length : ℚ)) * 100 := by positivity
  have h1 : (((gvs.filter (fun v => x ≤ v)).length : ℚ) /
      (gvs.length : ℚ)) * 100 ≤ 100 := by
    have hd : ((gvs.filter (fun v => x ≤ v)).length : ℚ) /
        (gvs.length : ℚ) ≤ 1 := (div_le_one hn0).mpr hcn
    linarith
  exact round2_bounds _ h0 h1

/-- C10 (witness): Corey Atkins gets the numeric percentile 33.33, which
the range theorem places inside `[0, 100]`. -/
theorem percentile_num_in_range_witness :
    getPercentile fxStore corey "Forty" "2000" "draft_class" =
      .ok (.num (3333/100)) ∧
    0 ≤ (3333 : ℚ)/100 ∧ (3333 : ℚ)/100 ≤ 100 := by
  have h := getPercentile_num_eval fxStore corey "Forty" "2000" "draft_class"
    "4.72" (118/25) ["4.55", "4.58", "4.72"] [91/20, 229/50, 118/25] 3333
    (by decide) (by decide) (by with_unfolding_all decide) (by decide)
    (by with_unfolding_all decide) (by decide) (by with_unfolding_all decide)
  have hc : (((3333 : ℤ) : ℚ)) / 100 = 3333/100 := by norm_num
  rw [hc] at h
  exact ⟨h, percentile_num_in_range fxStore corey "Forty" "2000"
    "draft_class" (3333/100) h⟩

/-- Spec-side description used by the amended C3 claim: the LAST owned test
id whose `name` property equals `tn`, if any. -/
def lastMatch? (db : List TestRow) (tn : String) : List String → Option String
  | [] => none
  | tid :: rest =>
      match lastMatch? db tn rest with
      | some t => some t
      | none => if testName db tid = some tn then some tid else none

/-- The loop of `get_score` keeps overwriting `score`, so it ends at the
value of the last matching owned test (or the accumulator when none
matches). -/
theorem getScoreAux_last (db : List TestRow) (tn : String) :
    ∀ (owned : List String) (score : String),
      (∀ tid ∈ owned, (findTest db tid).isSome) →
      getScoreAux db tn score owned =
        some (match lastMatch? db tn owned with
              | none => score
              | some tid => (testValue db tid).getD "") := by
  intro owned
  induction owned with
  | nil =>
    intro score _
    rfl
  | cons tid rest ih =>
    intro score h
    have htid : (findTest db tid).isSome := h tid (List.mem_cons_self _ _)
    obtain ⟨r, hr⟩ := Option.isSome_iff_exists.mp htid
    have hrest : ∀ u ∈ rest, (findTest db u).isSome :=
      fun u hu => h u (List.mem_cons_of_mem _ hu)
    have hname : testName db tid = some r.name := by
      rw [testName, hr]
      rfl
    have hval : testValue db tid = some (dnpSub r.value) := by
      rw [testValue, hr]
      rfl
    by_cases hn : r.name = tn
    · have hstep : getScoreAux db tn score (tid :: rest) =
          getScoreAux db tn (dnpSub r.value) rest := by
        simp [getScoreAux, hname, hval, hn]
      rw [hstep, ih (dnpSub r.value) hrest]
      cases hlm : lastMatch? db tn rest with
      | none => simp [lastMatch?, hlm, hname, hn, hval]
      | some u => simp [lastMatch?, hlm]
    · have hstep : getScoreAux db tn score (tid :: rest) =
          getScoreAux db tn score rest := by
        simp [getScoreAux, hname, hn]
      rw [hstep, ih score hrest]
      cases hlm : lastMatch? db tn rest with
      | none => simp [lastMatch?, hlm, hname, hn]
      | some u => simp [lastMatch?, hlm]

/-- C3 (counterexample): `get_score` for a player with no matching owned
test returns the empty string, not `"DNP"`; and with two owned tests of the
same name it returns the LAST one's value, not the first. -/
theorem getScore_no_match_and_last :
    getScore nobodyStore.tests nobody "Forty" = some "" ∧
    some "" ≠ some "DNP" ∧
    getScore
      [{ testId := "t1", playerId := "x", pos := "QB", name := "Forty",
         value := "4.5", year := "2000" },
       { testId := "t2", playerId := "x", pos := "QB", name := "Forty",
         value := "4.9", year := "2000" }]
      { id := "x", ownedTests := ["t1", "t2"] } "Forty" = some "4.9" ∧
    ("4.9" : String) ≠ "4.5" := by
  decide

/-- C3 (amended): when every owned test id resolves in the database,
`get_score` returns the value (with the empty string read back as `"DNP"`)
of the LAST owned test whose name equals `test_name`, and returns the empty
string — not `"DNP"` — when no owned test matches. -/
theorem getScore_last_match (db : List TestRow) (p : PlayerEnt) (tn : String)
    (h : ∀ tid ∈ p.ownedTests, (findTest db tid).isSome) :
    getScore db p tn =
      some (match lastMatch? db tn p.ownedTests with
            | none => ""
            | some tid => (testValue db tid).getD "") :=
  getScoreAux_last db tn p.ownedTests "" h

/-- C3 (witness): John Abraham's stored `Forty` value reads back exactly,
the repository's own unit test case. -/
theorem getScore_last_match_witness :
    getScore fxStore.tests john "Forty" = some "4.55" :=
  (getScore_last_match fxStore.tests john "Forty" (by decide)).trans (by decide)

/-- C5 (confirmed): the comparison population is every `Tests` row matching
the test name and year, with the player's own position as an additional
filter exactly for `group = "pos_group"` and no position filter for
`group = "draft_class"`. -/
theorem population_group_filter (s : Store) (p : PlayerEnt) (tn year : String) :
    population s p tn year "draft_class" =
      .ok ((s.tests.filter
        (fun t => t.name == tn && t.year == year)).map (·.value)) ∧
    ∀ pp, playerPos s p.id = some pp →
      population s p tn year "pos_group" =
        .ok ((s.tests.filter
          (fun t => t.name == tn && t.year == year && t.pos == pp)).map
            (·.value)) := by
  constructor
  · simp [population, pure, Pure.pure, Except.pure]
  · intro pp hpp
    simp [population, hpp, ofOption, Except.bind, bind, Bind.bind, pure,
      Pure.pure, Except.pure]

/-- C5 (witness): John Abraham's position group (OLB) population for the
2000 `Forty` is his own and Corey Atkins's values; Shaun Alexander (RB) is
filtered out. -/
theorem population_group_filter_witness :
    population fxStore john "Forty" "2000" "pos_group" =
      .ok ["4.55", "4.72"] :=
  ((population_group_filter fxStore john "Forty" "2000").2 "OLB"
    (by decide)).trans (by decide)

/-- Looking a key up after a dict insertion: the inserted key maps to the
new value, every other key is untouched. -/
theorem dictGet?_insert (q k : String) (v : PlayerEnt)
    (d : List (String × PlayerEnt)) :
    dictGet? q (dictInsert k v d) = if q = k then some v else dictGet? q d := by
  induction d with
  | nil =>
    by_cases h : q = k
    · simp [dictInsert, dictGet?, h]
    · simp [dictInsert, dictGet?, h, Ne.symm h]
  | cons kv rest ih =>
    by_cases hk0 : kv.1 = k
    · by_cases hq : q = k
      · simp [dictInsert, dictGet?, hk0, hq]
      · simp [dictInsert, dictGet?, hk0, hq, Ne.symm hq]
    · by_cases hq0 : kv.1 = q
      · have hqk : q ≠ k := fun hEq => hk0 (hq0.trans hEq)
        simp [dictInsert, dictGet?, hk0, hq0, hqk]
      · simp [dictInsert, dictGet?, hk0, hq0, ih]

/-- If some test row's player id is absent from the dict (and inserts only
ever touch present keys), the test loop of `parse_data` raises `KeyError`. -/
theorem testLoop_orphan (t : TestFileRow) :
    ∀ (rows : List TestFileRow) (d : List (String × PlayerEnt)),
      t ∈ rows → dictGet? t.pfrId d = none →
      testLoop d rows = .error .keyError := by
  intro rows
  induction rows with
  | nil =>
    intro d h _
    cases h
  | cons r rest ih =>
    intro d hmem hnone
    rcases List.mem_cons.mp hmem with heq | hmem
    · subst heq
      simp [testLoop, hnone]
    · cases hd : dictGet? r.pfrId d with
      | none => simp [testLoop, hd]
      | some pl =>
        have hne : t.pfrId ≠ r.pfrId := by
          intro hEq
          rw [hEq, hd] at hnone
          cases hnone
        have hnone' : dictGet? t.pfrId
            (dictInsert r.pfrId
              { pl with ownedTests :=
                  pl.ownedTests ++ [r.pfrId ++ "_" ++ r.test] } d) = none := by
          rw [dictGet?_insert]
          simp [hne, hnone]
        have hrec := ih _ hmem hnone'
        simp [testLoop, hd, hrec]

/-- The initial dict of `parse_data` holds exactly the player-file ids, so
an id matching no player row is absent from it. -/
theorem dictGet?_foldl_none (k : String) :
    ∀ (rows : List PlayerFileRow) (d : List (String × PlayerEnt)),
      dictGet? k d = none → (∀ pr ∈ rows, pr.pfrId ≠ k) →
      dictGet? k (rows.foldl
        (fun d r => dictInsert r.pfrId { id := r.pfrId, ownedTests := [] } d)
        d) = none := by
  intro rows
  induction rows with
  | nil =>
    intro d h _
    simpa using h
  | cons r rest ih =>
    intro d hd hall
    have hr : r.pfrId ≠ k := hall r (List.mem_cons_self _ _)
    have hd' : dictGet? k
        (dictInsert r.pfrId { id := r.pfrId, ownedTests := [] } d) = none := by
      rw [dictGet?_insert]
      simp [Ne.symm hr, hd]
    exact ih _ hd' (fun pr hpr => hall pr (List.mem_cons_of_mem _ hpr))

/-- C7 (confirmed): a test row whose player id matches no player row makes
`parse_data` raise `KeyError`; no store of any kind is returned. -/
theorem parseData_orphan_aborts (playerRows : List PlayerFileRow)
    (testRows : List TestFileRow) (t : TestFileRow)
    (ht : t ∈ testRows) (ho : ∀ pr ∈ playerRows, pr.pfrId ≠ t.pfrId) :
    parseData playerRows testRows = .error .keyError ∧
    ∀ out, parseData playerRows testRows ≠ .ok out := by
  have hinit : dictGet? t.pfrId (playerRows.foldl
      (fun d r => dictInsert r.pfrId { id := r.pfrId, ownedTests := [] } d)
      []) = none :=
    dictGet?_foldl_none t.pfrId playerRows [] rfl ho
  have hloop := testLoop_orphan t testRows _ ht hinit
  have hmain : parseData playerRows testRows = .error .keyError := by
    simp [parseData, hloop]
  exact ⟨hmain, fun out hout => by rw [hmain] at hout; cases hout⟩

/-- C7 (witness): a test row for an id with no player row aborts the
ingestion of the fixture with `KeyError`. -/
theorem parseData_orphan_aborts_witness :
    parseData fxPlayerRows [fxT "Nobody_2000" "QB" "Forty" "5.0"] =
      .error .keyError :=
  (parseData_orphan_aborts fxPlayerRows
    [fxT "Nobody_2000" "QB" "Forty" "5.0"]
    (fxT "Nobody_2000" "QB" "Forty" "5.0") (by decide) (by decide)).1

/-- C8 (counterexample): assigning the string `"b"` through the `id` setter
of a player constructed with id `"a"` succeeds and changes the key, so
`player_id` is NOT immutable after construction. -/
theorem setId_string_reassigns :
    setId { id := "a", ownedTests := [] } (.str "b") =
      .ok { id := "b", ownedTests := [] } ∧
    ("b" : String) ≠ "a" := by
  decide

/-- C8 (amended): the `id` setter rejects every non-string value with the
ValidationError (`ValueError` in the code), at construction time and
afterwards — but a string value is always accepted, so the key is mutable
to any other string after construction. -/
theorem setId_guard (p : PlayerEnt) (v : PyVal) :
    setId p .nonStr = .error .valueError ∧
    mkPlayer .nonStr = .error .valueError ∧
    (∀ str, setId p (.str str) = .ok { p with id := str }) ∧
    (∀ str, mkPlayer (.str str) = .ok { id := str, ownedTests := [] }) ∧
    (setId p v = .error .valueError ↔ v = .nonStr) := by
  refine ⟨rfl, rfl, fun str => rfl, fun str => rfl, ?_⟩
  cases v with
  | str sv => simp [setId]
  | nonStr => simp [setId]

/-- C6 (confirmed): for every aggregate-table operation, a retained player
contributes no row when any requested variable resolves to `"DNP"` and
exactly one full-width row otherwise, and each operation's table is the
concatenation of the per-player contributions in filter order. -/
theorem aggregate_all_or_nothing (s : Store) (var varOne varTwo : String)
    (p : PlayerEnt) :
    (resolveVar s p var = .ok "DNP" → singleVarPlayerRows s var p = .ok []) ∧
    (∀ v b x, resolveVar s p var = .ok v → v ≠ "DNP" →
      wasDrafted s p.id = some b → pyFloat? v = some x →
      singleVarPlayerRows s var p = .ok [[statusCell b, .num x]]) ∧
    (∀ v1 v2, resolveVar s p varOne = .ok v1 → resolveVar s p varTwo = .ok v2 →
      (v1 = "DNP" ∨ v2 = "DNP") →
      scatterPlayerRows s varOne varTwo p = .ok [] ∧
      kmeansPlayerRows s varOne varTwo p = .ok []) ∧
    (∀ v1 v2 b pp x1 x2, resolveVar s p varOne = .ok v1 →
      resolveVar s p varTwo = .ok v2 → v1 ≠ "DNP" → v2 ≠ "DNP" →
      wasDrafted s p.id = some b → playerPos s p.id = some pp →
      pyFloat? v1 = some x1 → pyFloat? v2 = some x2 →
      scatterPlayerRows s varOne varTwo p =
        .ok [[statusCell b, .num x1, .num x2]] ∧
      kmeansPlayerRows s varOne varTwo p =
        .ok [[statusCell b, .str pp, .num x1, .num x2]]) ∧
    (∀ year pos recs ps rss, filterPlayers s year pos recs = .ok ps →
      ps.mapM (singleVarPlayerRows s var) = .ok rss →
      singleVarFrame var year (s, recs) pos =
        .ok { columns := ["Draft Status", var], rows := rss.flatten }) ∧
    (∀ year pos recs ps rss, filterPlayers s year pos recs = .ok ps →
      ps.mapM (scatterPlayerRows s varOne varTwo) = .ok rss →
      scatterplot varOne varTwo year (s, recs) pos =
        .ok { columns := ["Draft Status", varOne, varTwo],
              rows := rss.flatten }) := by
  refine ⟨?_, ?_, ?_, ?_, ?_, ?_⟩
  · intro h
    simp [singleVarPlayerRows, h, ofOption, Except.bind, bind, Bind.bind,
      pure, Pure.pure, Except.pure]
  · intro v b x hv hne hb hx
    simp [singleVarPlayerRows, hv, hne, hb, hx, ofOption, Except.bind, bind,
      Bind.bind, pure, Pure.pure, Except.pure]
  · intro v1 v2 h1 h2 hdnp
    constructor
    · rcases hdnp with h | h <;>
        simp [scatterPlayerRows, h1, h2, h, ofOption, Except.bind, bind,
          Bind.bind, pure, Pure.pure, Except.pure]
    · rcases hdnp with h | h <;>
        simp [kmeansPlayerRows, h1, h2, h, ofOption, Except.bind, bind,
          Bind.bind, pure, Pure.pure, Except.pure]
  · intro v1 v2 b pp x1 x2 h1 h2 hne1 hne2 hb hpp hx1 hx2
    constructor
    · simp [scatterPlayerRows, h1, h2, hne1, hne2, hb, hx1, hx2, ofOption,
        Except.bind, bind, Bind.bind, pure, Pure.pure, Except.pure]
    · simp [kmeansPlayerRows, h1, h2, hne1, hne2, hb, hpp, hx1, hx2, ofOption,
        Except.bind, bind, Bind.bind, pure, Pure.pure, Except.pure]
  · intro year pos recs ps rss hfp hm
    simp only [singleVarFrame, hfp, hm, Except.bind, bind, Bind.bind, pure,
      Pure.pure, Except.pure]
  · intro year pos recs ps rss hfp hm
    simp only [scatterplot, hfp, hm, Except.bind, bind, Bind.bind, pure,
      Pure.pure, Except.pure]

/-- C6 (witness): John Abraham's empty-valued `Vertical` contributes no row
to a `Vertical` table; Corey Atkins, with both `Forty` and `Vertical`
recorded, contributes exactly the one full row to a scatter table. -/
theorem aggregate_all_or_nothing_witness :
    singleVarPlayerRows fxStore "Vertical" john = .ok [] ∧
    scatterPlayerRows fxStore "Forty" "Vertical" corey =
      .ok [[statusCell false, .num (118/25), .num 31]] := by
  constructor
  · exact (aggregate_all_or_nothing fxStore "Vertical" "Forty" "Vertical"
      john).1 (by decide)
  · exact ((aggregate_all_or_nothing fxStore "Vertical" "Forty" "Vertical"
      corey).2.2.2.1 "4.72" "31" false "OLB" (118/25) 31 (by decide)
      (by decide) (by decide) (by decide) (by decide) (by decide)
      (by with_unfolding_all decide) (by with_unfolding_all decide)).1

/-- Column set of the assembled single-variable frame. -/
theorem singleVarFrame_columns (s : Store) (var year : String)
    (recs : List PlayerEnt) (pos : Option String) (f : Frame)
    (h : singleVarFrame var year (s, recs) pos = .ok f) :
    f.columns = ["Draft Status", var] := by
  cases hfp : filterPlayers s year pos recs with
  | error e =>
    simp only [singleVarFrame, hfp, Except.bind, bind, Bind.bind] at h
    exact Except.noConfusion h
  | ok ps =>
    cases hm : ps.mapM (singleVarPlayerRows s var) with
    | error e =>
        simp only [singleVarFrame, hfp, hm, Except.bind, bind, Bind.bind] at h
        exact Except.noConfusion h
    | ok rss =>
        simp only [singleVarFrame, hfp, hm, Except.bind, bind, Bind.bind,
          pure, Pure.pure, Except.pure, Except.ok.injEq] at h
        subst h
        rfl

/-- Column set of the scatter frame. -/
theorem scatterplot_columns (s : Store) (varOne varTwo year : String)
    (recs : List PlayerEnt) (pos : Option String) (f : Frame)
    (h : scatterplot varOne varTwo year (s, recs) pos = .ok f) :
    f.columns = ["Draft Status", varOne, varTwo] := by
  cases hfp : filterPlayers s year pos recs with
  | error e =>
    simp only [scatterplot, hfp, Except.bind, bind, Bind.bind] at h
    exact Except.noConfusion h
  | ok ps =>
    cases hm : ps.mapM (scatterPlayerRows s varOne varTwo) with
    | error e =>
        simp only [scatterplot, hfp, hm, Except.bind, bind, Bind.bind] at h
        exact Except.noConfusion h
    | ok rss =>
        simp only [scatterplot, hfp, hm, Except.bind, bind, Bind.bind, pure,
          Pure.pure, Except.pure, Except.ok.injEq] at h
        subst h
        rfl

/-- Column set of the returned kmeans frame: the four assembled columns
plus the `Cluster`, `Centroid_X`, `Centroid_Y` and `Color` columns added
before returning. -/
theorem kmeans_columns (assign : List (List Cell) → List ℕ)
    (cent : ℕ → ℚ × ℚ) (color : ℕ → String) (varOne varTwo year : String)
    (s : Store) (recs : List PlayerEnt) (pos : Option String) (f : Frame)
    (h : kmeans assign cent color varOne varTwo year (s, recs) pos = .ok f) :
    f.columns = ["Draft Status", "Pos", varOne, varTwo, "Cluster",
      "Centroid_X", "Centroid_Y", "Color"] := by
  cases hfp : filterPlayers s year pos recs with
  | error e =>
    simp only [kmeans, hfp, Except.bind, bind, Bind.bind] at h
    exact Except.noConfusion h
  | ok ps =>
    cases hm : ps.mapM (kmeansPlayerRows s varOne varTwo) with
    | error e =>
        simp only [kmeans, hfp, hm, Except.bind, bind, Bind.bind] at h
        exact Except.noConfusion h
    | ok rss =>
        simp only [kmeans, hfp, hm, Except.bind, bind, Bind.bind, pure,
          Pure.pure, Except.pure, addColumn, Except.ok.injEq] at h
        subst h
        rfl

/-- C9 (counterexample): on the fixture, the frame `kmeans` returns has
the columns `Cluster`, `Centroid_X`, `Centroid_Y` and `Color` beyond
`["Draft Status", "Pos", var_one, var_two]`, so the returned clustering
table does NOT have exactly the claimed column set.  (The external cluster
assignment is instantiated with a trivial all-zeros labelling; the column
set does not depend on it.) -/
theorem kmeans_extra_columns :
    (kmeans (fun rows => rows.map (fun _ => 0)) (fun _ => (0, 0))
        (fun _ => "c") "Forty" "Vertical" "2000"
        (fxStore, [john, shaun, corey]) none).map Frame.columns =
      .ok ["Draft Status", "Pos", "Forty", "Vertical", "Cluster",
        "Centroid_X", "Centroid_Y", "Color"] ∧
    ("Cluster" : String) ∉ ["Draft Status", "Pos", "Forty", "Vertical"] := by
  have hok : (kmeans (fun rows => rows.map (fun _ => 0)) (fun _ => (0, 0))
      (fun _ => "c") "Forty" "Vertical" "2000"
      (fxStore, [john, shaun, corey]) none).isOk = true := by
    decide
  constructor
  · cases hs : kmeans (fun rows => rows.map (fun _ => 0)) (fun _ => (0, 0))
        (fun _ => "c") "Forty" "Vertical" "2000"
        (fxStore, [john, shaun, corey]) none with
    | error e =>
        rw [hs] at hok
        simp [Except.isOk, Except.toBool] at hok
    | ok f =>
        have hc := kmeans_columns (fun rows => rows.map (fun _ => 0))
          (fun _ => (0, 0)) (fun _ => "c") "Forty" "Vertical" "2000"
          fxStore [john, shaun, corey] none f hs
        simp [Except.map, hc]
  · decide

/-- C9 (amended): the assembled single-variable tables (and the grouped
mean `barplot` returns) have exactly the columns
`["Draft Status", var]`, the scatter table exactly
`["Draft Status", var_one, var_two]`; the clustering table is assembled
with exactly `["Draft Status", "Pos", var_one, var_two]`, but the frame
`kmeans` returns carries the additional `Cluster`, `Centroid_X`,
`Centroid_Y` and `Color` columns. -/
theorem frame_columns_contract (s : Store) (var varOne varTwo year : String)
    (recs : List PlayerEnt) (pos : Option String)
    (assign : List (List Cell) → List ℕ) (cent : ℕ → ℚ × ℚ)
    (color : ℕ → String) :
    (∀ f, singleVarFrame var year (s, recs) pos = .ok f →
      f.columns = ["Draft Status", var]) ∧
    (∀ f, barplot var year (s, recs) pos = .ok f →
      f.columns = ["Draft Status", var]) ∧
    (∀ f, histogram var year (s, recs) pos = .ok f →
      f.columns = ["Draft Status", var]) ∧
    (∀ f, boxplot var year (s, recs) pos = .ok f →
      f.columns = ["Draft Status", var]) ∧
    (∀ f, scatterplot varOne varTwo year (s, recs) pos = .ok f →
      f.columns = ["Draft Status", varOne, varTwo]) ∧
    (∀ f, kmeans assign cent color varOne varTwo year (s, recs) pos = .ok f →
      f.columns = ["Draft Status", "Pos", varOne, varTwo, "Cluster",
        "Centroid_X", "Centroid_Y", "Color"]) := by
  refine ⟨fun f h => singleVarFrame_columns s var year recs pos f h, ?_,
    fun f h => singleVarFrame_columns s var year recs pos f h,
    fun f h => singleVarFrame_columns s var year recs pos f h,
    fun f h => scatterplot_columns s varOne varTwo year recs pos f h,
    fun f h => kmeans_columns assign cent color varOne varTwo year s recs
      pos f h⟩
  intro f h
  cases hsv : singleVarFrame var year (s, recs) pos with
  | error e =>
    simp only [barplot, hsv, Except.bind, bind, Bind.bind] at h
    exact Except.noConfusion h
  | ok df =>
    have hdf := singleVarFrame_columns s var year recs pos df hsv
    simp only [barplot, hsv, Except.bind, bind, Bind.bind, pure, Pure.pure,
      Except.pure, Except.ok.injEq] at h
    subst h
    simpa [groupbyMean] using hdf

/-- C9 (witness): on the fixture, the scatter table of `Forty` by
`Vertical` has exactly the three claimed columns. -/
theorem frame_columns_contract_witness :
    (scatterplot "Forty" "Vertical" "2000"
        (fxStore, [john, shaun, corey]) none).map Frame.columns =
      .ok ["Draft Status", "Forty", "Vertical"] := by
  have hok : (scatterplot "Forty" "Vertical" "2000"
      (fxStore, [john, shaun, corey]) none).isOk = true := by
    decide
  cases hs : scatterplot "Forty" "Vertical" "2000"
      (fxStore, [john, shaun, corey]) none with
  | error e =>
      rw [hs] at hok
      simp [Except.isOk, Except.toBool] at hok
  | ok f =>
      have hc := (frame_columns_contract fxStore "Forty" "Forty" "Vertical"
        "2000" [john, shaun, corey] none (fun rows => rows.map (fun _ => 0))
        (fun _ => (0, 0)) (fun _ => "c")).2.2.2.2.1 f hs
      simp [Except.map, hc]

end NflScout
